import Mathlib

/-!
Shallow embedding of the flashlight chained proxy (Go sources: the main
program and the proxy client), covering the certificate lifecycle
(initCommonCerts, initServerCert, certificateFor,
installCACertToTrustStoreIfNecessary), the client-side Director of the
MITM reverse proxy, the server-side handler (handleServer,
handleInfoRequest), the client dispatch (Client.ServeHTTP) and the
response-rewriting round tripper (wrappedRoundTripper.RoundTrip).

File-system access, key generation and certificate signing are effectful
in Go; here each effect's result is an explicit field of an environment
record, and each Go function becomes a pure function of that environment.
-/

namespace Flashlight

/-- Go time.Time, reduced to the fields the program inspects: absolute
seconds plus the nanosecond-within-second component returned by
`Nanosecond()`. -/
structure GoTime where
  sec : Int
  nsec : Nat
deriving Repr, DecidableEq

/-- Go `t1.Before(t2)`: strict chronological order. -/
def gtBefore (t1 t2 : GoTime) : Bool :=
  decide (t1.sec < t2.sec) || (decide (t1.sec = t2.sec) && decide (t1.nsec < t2.nsec))

/-- Go x509.KeyUsageDigitalSignature (1 << 0). -/
def keyUsageDigitalSignature : Nat := 1

/-- Go x509.KeyUsageKeyEncipherment (1 << 2). -/
def keyUsageKeyEncipherment : Nat := 4

/-- Go x509.KeyUsageCertSign (1 << 5). -/
def keyUsageCertSign : Nat := 32

/-- An x509 certificate, reduced to the fields the program sets or reads.
`issuerCN` is `none` for a self-signed certificate (Go: `pk.Certificate`
called with a nil issuer), otherwise the common name of the signer. -/
structure Certificate where
  serialNumber : Int
  organization : List String
  commonName : String
  notBefore : GoTime
  notAfter : GoTime
  basicConstraintsValid : Bool
  keyUsage : Nat
  extKeyUsageServerAuth : Bool
  isCA : Bool
  issuerCN : Option String
deriving Repr, DecidableEq

/-- The two `time.Now()`-derived values certificateFor reads: `now` (whose
`Nanosecond()` seeds the serial number) and `time.Now().AddDate(0, -1, 0)`
(the NotBefore); AddDate's calendar arithmetic is not re-implemented, the
resulting instant is supplied by the environment. -/
structure Clock where
  now : GoTime
  nowMinusOneMonth : GoTime
deriving Repr, DecidableEq

/-- Go `certificateFor(name, validUntil, isCA, issuer)`: builds the x509
template.  SerialNumber is `int64(time.Now().Nanosecond())`; KeyUsage
starts as KeyEncipherment|DigitalSignature; only when `issuer == nil` does
the template become a CA-capable, ExtKeyUsageServerAuth, IsCA=true
certificate, with CertSign added when `isCA` — with a non-nil issuer the
`isCA` argument is ignored and IsCA stays false. -/
def certificateFor (clock : Clock) (name : String) (validUntil : GoTime)
    (isCA : Bool) (issuer : Option Certificate) : Certificate :=
  let base := Nat.lor keyUsageKeyEncipherment keyUsageDigitalSignature
  let template : Certificate :=
    { serialNumber := Int.ofNat clock.now.nsec
      organization := ["Lantern"]
      commonName := name
      notBefore := clock.nowMinusOneMonth
      notAfter := validUntil
      basicConstraintsValid := true
      keyUsage := base
      extKeyUsageServerAuth := false
      isCA := false
      issuerCN := issuer.map (fun c => c.commonName) }
  match issuer with
  | none =>
      { template with
        keyUsage := if isCA then Nat.lor base keyUsageCertSign else base
        extKeyUsageServerAuth := true
        isCA := true }
  | some _ => template

/-- An RSA private key, reduced to its modulus size. -/
structure PrivateKey where
  bits : Nat
deriving Repr, DecidableEq

/-- Go `keyman.GeneratePK(bits)` on success. -/
def generatePK (bits : Nat) : PrivateKey := { bits := bits }

/-- Outcome of loading a persisted artifact from a file: loaded, failed
with an error for which `os.IsNotExist` is true, or failed with any other
error. -/
inductive LoadResult (α : Type) where
  | ok (a : α)
  | notExist
  | otherError
deriving Repr, DecidableEq

/-- The error values the certificate-lifecycle functions can return. -/
inductive GoError where
  | readPKExists
  | genPKFailed
  | writePKFailed
  | readCAExists
  | genCAFailed
  | writeCAFailed
  | readServerCertExists
  | genServerCertFailed
  | writeServerCertFailed
  | isInstalledCheckFailed
  | addTrustedRootFailed
  | innerRoundTripFailed
deriving Repr, DecidableEq

instance {ε α : Type} [DecidableEq ε] [DecidableEq α] : DecidableEq (Except ε α) := fun a b =>
  match a, b with
  | .ok x, .ok y =>
      if h : x = y then isTrue (by rw [h]) else isFalse (fun hc => h (Except.ok.inj hc))
  | .error x, .error y =>
      if h : x = y then isTrue (by rw [h]) else isFalse (fun hc => h (Except.error.inj hc))
  | .ok _, .error _ => isFalse (fun hc => Except.noConfusion hc)
  | .error _, .ok _ => isFalse (fun hc => Except.noConfusion hc)

/-- Environment of installCACertToTrustStoreIfNecessary: the role flags
and the results of the two trust-store collaborator calls
(`caCert.IsInstalled()` and `caCert.AddAsTrustedRoot()`). -/
structure InstallEnv where
  isDownstream : Bool
  installFlag : Bool
  isInstalledResult : Except GoError Bool
  addAsTrustedRootFails : Bool
deriving Repr, DecidableEq

/-- What installCACertToTrustStoreIfNecessary did: whether IsInstalled was
consulted, whether AddAsTrustedRoot was invoked, and the returned error if
any.  The function has no removal or downgrade operation at all. -/
structure InstallOutcome where
  checked : Bool
  added : Bool
  err : Option GoError
deriving Repr, DecidableEq

/-- Go `installCACertToTrustStoreIfNecessary`: the trust-store check runs
only when `needInstalledCert := isDownstream || *install`; the cert is
added as a trusted root only when additionally not already installed. -/
def installCACertToTrustStoreIfNecessary (env : InstallEnv) : InstallOutcome :=
  let needInstalledCert := env.isDownstream || env.installFlag
  if needInstalledCert then
    match env.isInstalledResult with
    | .error _ => { checked := true, added := false, err := some .isInstalledCheckFailed }
    | .ok haveInstalledCert =>
        if needInstalledCert && !haveInstalledCert then
          if env.addAsTrustedRootFails then
            { checked := true, added := true, err := some .addTrustedRootFailed }
          else
            { checked := true, added := true, err := none }
        else
          { checked := true, added := false, err := none }
  else
    -- haveInstalledCert stays false, so `needInstalledCert && !haveInstalledCert`
    -- is false and only the "not adding" log line runs
    { checked := false, added := false, err := none }

/-- Environment of initCommonCerts: the results of every file-system and
crypto effect it may perform, plus the global time values computed at
startup. -/
structure CertEnv where
  loadPK : LoadResult PrivateKey
  genPKFails : Bool
  writePKFails : Bool
  loadCA : LoadResult Certificate
  certGenFails : Bool
  writeCAFails : Bool
  clock : Clock
  uuid : String
  oneMonthFromToday : GoTime
  tenYearsFromToday : GoTime
  installEnv : InstallEnv
deriving Repr, DecidableEq

/-- The private-key half of initCommonCerts: load `proxypk.pem`; on an
IsNotExist failure generate a 2048-bit key and persist it; on any other
load failure return "Unable to read private key, even though it
exists". Second component: whether WriteToFile ran. -/
def pkStep (env : CertEnv) : Except GoError (PrivateKey × Bool) :=
  match env.loadPK with
  | .ok k => .ok (k, false)
  | .notExist =>
      if env.genPKFails then .error .genPKFailed
      else if env.writePKFails then .error .writePKFailed
      else .ok (generatePK 2048, true)
  | .otherError => .error .readPKExists

/-- The CA-certificate half of initCommonCerts, translated branch by
branch from

  caCert, err = keyman.LoadCertificateFromFile(CA_CERT_FILE)
  if err != nil || caCert.X509().NotAfter.Before(ONE_MONTH_FROM_TODAY) {
    if os.IsNotExist(err) { generate and persist } else { return error }
  }

When the load succeeds (`err == nil`) but NotAfter precedes the margin,
the outer condition holds yet `os.IsNotExist(nil)` is false, so the else
branch returns the "Unable to read CA cert, even though it exists" error.
Second component: whether WriteToFile ran. -/
def caStep (env : CertEnv) : Except GoError (Certificate × Bool) :=
  match env.loadCA with
  | .ok c =>
      if gtBefore c.notAfter env.oneMonthFromToday then
        .error .readCAExists
      else
        .ok (c, false)
  | .notExist =>
      if env.certGenFails then .error .genCAFailed
      else if env.writeCAFails then .error .writeCAFailed
      else
        .ok (certificateFor env.clock ("flashlight-" ++ env.uuid)
              env.tenYearsFromToday true none, true)
  | .otherError => .error .readCAExists

/-- Result of a successful initCommonCerts run. -/
structure InitCommonOutcome where
  pk : PrivateKey
  caCert : Certificate
  pkWritten : Bool
  caWritten : Bool
  installOutcome : InstallOutcome
deriving Repr, DecidableEq

/-- Go `initCommonCerts`: private-key step, then CA-certificate step, then
trust-store installation whose failure is only logged — the function
returns nil regardless of the installation outcome. -/
def initCommonCerts (env : CertEnv) : Except GoError InitCommonOutcome :=
  match pkStep env with
  | .error e => .error e
  | .ok (k, pkw) =>
      match caStep env with
      | .error e => .error e
      | .ok (c, caw) =>
          let inst := installCACertToTrustStoreIfNecessary env.installEnv
          .ok { pk := k, caCert := c, pkWritten := pkw, caWritten := caw
                installOutcome := inst }

/-- Environment of initServerCert: result of loading `servercert.pem`,
generation/persistence effects, and the startup time values. -/
structure ServerCertEnv where
  loadServerCert : LoadResult Certificate
  certGenFails : Bool
  writeFails : Bool
  clock : Clock
  oneMonthFromToday : GoTime
  oneYearFromToday : GoTime
deriving Repr, DecidableEq

/-- Go `initServerCert(host)`, translated branch by branch from

  serverCert, err = keyman.LoadCertificateFromFile(SERVER_CERT_FILE)
  if err != nil || caCert.X509().NotAfter.Before(ONE_MONTH_FROM_TODAY) {
    if err == nil || os.IsNotExist(err) { generate and persist } else { return error }
  }

Note the expiry test reads `caCert` — the root — not the loaded server
certificate.  Second component of the result: whether WriteToFile ran
(true exactly when a fresh certificate was generated). -/
def initServerCert (host : String) (caCert : Certificate) (env : ServerCertEnv) :
    Except GoError (Certificate × Bool) :=
  let regen : Except GoError (Certificate × Bool) :=
    if env.certGenFails then .error .genServerCertFailed
    else if env.writeFails then .error .writeServerCertFailed
    else .ok (certificateFor env.clock host env.oneYearFromToday true (some caCert), true)
  match env.loadServerCert with
  | .ok c =>
      if gtBefore caCert.notAfter env.oneMonthFromToday then regen
      else .ok (c, false)
  | .notExist => regen
  | .otherError => .error .readServerCertExists

/-- Go's HTTP CONNECT method constant, shared by both sources. -/
def CONNECT : String := "CONNECT"

/-- Helper for `goSplit`: splits the remaining characters at every
occurrence of `sep`, with `acc` the (reversed) characters of the current
field. -/
def splitOnCharAux (sep : Char) : List Char → List Char → List (List Char)
  | [], acc => [acc.reverse]
  | c :: cs, acc =>
      if c = sep then acc.reverse :: splitOnCharAux sep cs []
      else splitOnCharAux sep cs (c :: acc)

/-- Go `strings.Split(s, sep)` for a one-character separator (the program
only splits on ":" and ","): all substrings between consecutive
separators, in order; the result is never empty, so indexing with [0] or
[len-1] is safe. -/
def goSplit (s : String) (sep : Char) : List String :=
  (splitOnCharAux sep s.data []).map (fun l => String.mk l)

/-- An HTTP request, reduced to the destination fields the Director reads
or a rewrite may change. -/
structure Request where
  method : String
  host : String
  urlString : String
deriving Repr, DecidableEq

/-- A resolved IP address, reduced to the one predicate the program asks
of it (`ip.IP.IsLoopback()`). -/
structure IPAddr where
  isLoopback : Bool
deriving Repr, DecidableEq

/-- The Director of the client-side (MITM) reverse proxy:

  ip, err := net.ResolveIPAddr("ip4", strings.Split(req.Host, ":")[0])
  if err == nil && !ip.IP.IsLoopback() {
    clientProtocol.RewriteRequest(req)
  }
  dumpHeaders("Request", req.Header)

`resolve` models net.ResolveIPAddr (`none` = error), `rewriteRequest`
models clientProtocol.RewriteRequest (whose code lives in the cloudflare
protocol package, outside this repository); dumpHeaders only logs and
changes no request field. -/
def clientDirector (rewriteRequest : Request → Request)
    (resolve : String → Option IPAddr) (req : Request) : Request :=
  match resolve ((goSplit req.host ':').headD "") with
  | some ip => if !ip.isLoopback then rewriteRequest req else req
  | none => req

/-- A request as seen by the server-side handler, reduced to the header
values and the remote address it reads. -/
structure ServerRequest where
  infoHeaderValue : String
  xForwardedFor : String
  remoteAddr : String
deriving Repr, DecidableEq

/-- The response handleInfoRequest writes: the X-LANTERN-PUBLIC-IP header
value, the status code, and the (empty, never written) body. -/
structure InfoResponse where
  publicIPHeader : String
  statusCode : Nat
  body : String
deriving Repr, DecidableEq

/-- The client IP handleInfoRequest reports: X-Forwarded-For's last
comma-separated entry when that header is set, otherwise RemoteAddr up to
the first colon. -/
def apparentClientIp (req : ServerRequest) : String :=
  if req.xForwardedFor = "" then
    (goSplit req.remoteAddr ':').headD ""
  else
    (goSplit req.xForwardedFor ',').getLastD ""

/-- Go `handleInfoRequest`: sets X-LANTERN-PUBLIC-IP to the apparent
client IP, writes status 200, and writes no body. -/
def handleInfoRequest (req : ServerRequest) : InfoResponse :=
  { publicIPHeader := apparentClientIp req, statusCode := 200, body := "" }

/-- Which path `handleServer` dispatches a request to. -/
inductive ServerHandling where
  | infoResponse (r : InfoResponse)
  | proxiedByServerProxy
deriving Repr, DecidableEq

/-- Go `handleServer`: a request with a non-empty X-Lantern-Request-Info
header is answered by handleInfoRequest; every other request goes to
serverProxy.ServeHTTP. -/
def handleServer (req : ServerRequest) : ServerHandling :=
  if req.infoHeaderValue ≠ "" then .infoResponse (handleInfoRequest req)
  else .proxiedByServerProxy

/-- Which path `Client.ServeHTTP` (src/proxy/client.go) dispatches to. -/
inductive ClientDispatch where
  | enproxyIntercept
  | reverseProxyServe
deriving Repr, DecidableEq

/-- Go `Client.ServeHTTP`: CONNECT requests go to
EnproxyConfig.Intercept, all others to client.reverseProxy.ServeHTTP. -/
def clientServeHTTP (req : Request) : ClientDispatch :=
  if req.method = CONNECT then .enproxyIntercept else .reverseProxyServe

/-- An HTTP response, reduced to fields a rewrite may change. -/
structure HttpResponse where
  statusCode : Nat
  headers : List (String × String)
deriving Repr, DecidableEq

/-- Go `wrappedRoundTripper`: an inner RoundTripper (returning Go's
(resp, err) pair; `none` in the second component means a nil error) and a
response-rewrite function (Go mutates the response in place; here the
rewrite returns the updated response). -/
structure WrappedRoundTripper where
  rewrite : HttpResponse → HttpResponse
  orig : Request → Option HttpResponse × Option GoError

/-- Go `wrappedRoundTripper.RoundTrip`:

  resp, err = rt.orig.RoundTrip(req)
  if err == nil {
    rt.rewrite(resp)
    dumpHeaders("Response", resp.Header)
  }
  return

On a nil error the rewrite is applied to the response (the RoundTripper
contract makes resp non-nil whenever err is nil, hence the Option.map);
otherwise the pair is returned exactly as the inner RoundTripper produced
it. -/
def wrappedRoundTrip (rt : WrappedRoundTripper) (req : Request) :
    Option HttpResponse × Option GoError :=
  let r := rt.orig req
  match r.2 with
  | none => (r.1.map rt.rewrite, none)
  | some _ => r

/-! ## Shared helper lemmas -/

/-- pkStep reads no field of `installEnv`. -/
theorem pkStep_ignores_installEnv (env : CertEnv) (i : InstallEnv) :
    pkStep { env with installEnv := i } = pkStep env := rfl

/-- caStep reads no field of `installEnv`. -/
theorem caStep_ignores_installEnv (env : CertEnv) (i : InstallEnv) :
    caStep { env with installEnv := i } = caStep env := rfl

/-- The serial number certificateFor assigns is always the nanosecond
component of the issuance clock. -/
theorem certificateFor_serialNumber (clock : Clock) (name : String) (validUntil : GoTime)
    (isCA : Bool) (issuer : Option Certificate) :
    (certificateFor clock name validUntil isCA issuer).serialNumber = Int.ofNat clock.now.nsec := by
  unfold certificateFor
  cases issuer <;> rfl

/-! ## Claim theorems -/

/-- Claim C1 (code bug): the claim says a successfully loaded root CA
certificate whose NotAfter is earlier than the one-month margin makes
initCommonCerts regenerate the root and return without error.  The code
instead enters the `err != nil || NotAfter.Before(margin)` branch with a
nil error, finds `os.IsNotExist(nil)` false, and returns the "Unable to
read CA cert, even though it exists" error, failing startup.  This
theorem evaluates the embedded initCommonCerts at such an environment:
the key loads, the root loads with NotAfter (sec 50) before the margin
(sec 100), every generation and write effect would succeed, and the run
nevertheless returns the read error. -/
theorem initCommonCerts_expiring_root_fails_startup :
    gtBefore { sec := 50, nsec := 0 } { sec := 100, nsec := 0 } = true ∧
    initCommonCerts
      { loadPK := .ok { bits := 2048 }
        genPKFails := false
        writePKFails := false
        loadCA := .ok
          { serialNumber := 1, organization := ["Lantern"],
            commonName := "flashlight-old", notBefore := { sec := 0, nsec := 0 },
            notAfter := { sec := 50, nsec := 0 }, basicConstraintsValid := true,
            keyUsage := 37, extKeyUsageServerAuth := true, isCA := true,
            issuerCN := none }
        certGenFails := false
        writeCAFails := false
        clock := { now := { sec := 60, nsec := 0 }, nowMinusOneMonth := { sec := 30, nsec := 0 } }
        uuid := "u"
        oneMonthFromToday := { sec := 100, nsec := 0 }
        tenYearsFromToday := { sec := 1000, nsec := 0 }
        installEnv :=
          { isDownstream := true, installFlag := false,
            isInstalledResult := .ok true, addAsTrustedRootFails := false } }
      = .error .readCAExists := by
  decide

/-- Claim C2 (counterexample): the claim says a loaded server certificate
is reused exactly when its own NotAfter is not within the margin.  Here
the loaded server certificate's own NotAfter (sec 10) is before the
margin (sec 100), yet initServerCert reuses it unchanged, because the
code's expiry test reads the root's NotAfter (sec 1000). -/
theorem initServerCert_reuses_expiring_server_cert :
    gtBefore { sec := 10, nsec := 0 } { sec := 100, nsec := 0 } = true ∧
    initServerCert "example.org"
      { serialNumber := 3, organization := ["Lantern"], commonName := "flashlight-root",
        notBefore := { sec := 0, nsec := 0 }, notAfter := { sec := 1000, nsec := 0 },
        basicConstraintsValid := true, keyUsage := 37, extKeyUsageServerAuth := true,
        isCA := true, issuerCN := none }
      { loadServerCert := .ok
          { serialNumber := 4, organization := ["Lantern"], commonName := "example.org",
            notBefore := { sec := 0, nsec := 0 }, notAfter := { sec := 10, nsec := 0 },
            basicConstraintsValid := true, keyUsage := 5, extKeyUsageServerAuth := false,
            isCA := false, issuerCN := some "flashlight-root" },
        certGenFails := false, writeFails := false,
        clock := { now := { sec := 60, nsec := 0 }, nowMinusOneMonth := { sec := 30, nsec := 0 } },
        oneMonthFromToday := { sec := 100, nsec := 0 },
        oneYearFromToday := { sec := 500, nsec := 0 } }
      = .ok
        ({ serialNumber := 4, organization := ["Lantern"], commonName := "example.org",
           notBefore := { sec := 0, nsec := 0 }, notAfter := { sec := 10, nsec := 0 },
           basicConstraintsValid := true, keyUsage := 5, extKeyUsageServerAuth := false,
           isCA := false, issuerCN := some "flashlight-root" }, false) := by
  decide

/-- Claim C2 (amended): in initServerCert, whether a successfully loaded
server certificate is reused is decided by the ROOT certificate's expiry:
it is reused exactly when the root's NotAfter is not before the one-month
margin, regardless of the server certificate's own NotAfter. -/
theorem initServerCert_regen_gated_by_root_expiry (host : String) (caCert : Certificate)
    (env : ServerCertEnv) (c : Certificate) (h : env.loadServerCert = .ok c) :
    initServerCert host caCert env = .ok (c, false) ↔
      gtBefore caCert.notAfter env.oneMonthFromToday = false := by
  unfold initServerCert
  rw [h]
  cases hb : gtBefore caCert.notAfter env.oneMonthFromToday <;>
    by_cases hg : env.certGenFails <;>
      by_cases hw : env.writeFails <;>
        simp [hb, hg, hw]

/-- Witness for the amended C2 theorem at a concrete environment: the
root expires at sec 1000, far past the margin sec 100, so the loaded
server certificate (expiring at sec 800) is reused. -/
theorem initServerCert_regen_gated_by_root_expiry_witness :
    initServerCert "example.org"
      { serialNumber := 3, organization := ["Lantern"], commonName := "flashlight-root",
        notBefore := { sec := 0, nsec := 0 }, notAfter := { sec := 1000, nsec := 0 },
        basicConstraintsValid := true, keyUsage := 37, extKeyUsageServerAuth := true,
        isCA := true, issuerCN := none }
      { loadServerCert := .ok
          { serialNumber := 4, organization := ["Lantern"], commonName := "example.org",
            notBefore := { sec := 0, nsec := 0 }, notAfter := { sec := 800, nsec := 0 },
            basicConstraintsValid := true, keyUsage := 5, extKeyUsageServerAuth := false,
            isCA := false, issuerCN := some "flashlight-root" },
        certGenFails := false, writeFails := false,
        clock := { now := { sec := 60, nsec := 0 }, nowMinusOneMonth := { sec := 30, nsec := 0 } },
        oneMonthFromToday := { sec := 100, nsec := 0 },
        oneYearFromToday := { sec := 500, nsec := 0 } }
      = .ok
        ({ serialNumber := 4, organization := ["Lantern"], commonName := "example.org",
           notBefore := { sec := 0, nsec := 0 }, notAfter := { sec := 800, nsec := 0 },
           basicConstraintsValid := true, keyUsage := 5, extKeyUsageServerAuth := false,
           isCA := false, issuerCN := some "flashlight-root" }, false) :=
  (initServerCert_regen_gated_by_root_expiry _ _ _ _ rfl).mpr rfl

/-- Claim C3: in the client proxy's Director, when the first colon-field
of the request host resolves to a loopback address the request is
returned with every destination field unchanged (RewriteRequest is not
invoked), and when it resolves to a non-loopback address the result is
exactly RewriteRequest applied to the request. -/
theorem clientDirector_resolved_dispatch (rewriteRequest : Request → Request)
    (resolve : String → Option IPAddr) (req : Request) (ip : IPAddr)
    (hres : resolve ((goSplit req.host ':').headD "") = some ip) :
    (ip.isLoopback = true → clientDirector rewriteRequest resolve req = req) ∧
    (ip.isLoopback = false → clientDirector rewriteRequest resolve req = rewriteRequest req) := by
  unfold clientDirector
  rw [hres]
  rcases ip with ⟨b⟩
  cases b <;> simp

/-- Witness for C3: a loopback destination is left unchanged; a
non-loopback destination is rewritten. -/
theorem clientDirector_resolved_dispatch_witness :
    clientDirector (fun r => { r with host := "front.example" })
      (fun _ => some { isLoopback := true })
      { method := "GET", host := "127.0.0.1:8080", urlString := "http://127.0.0.1:8080/" }
      = { method := "GET", host := "127.0.0.1:8080", urlString := "http://127.0.0.1:8080/" } ∧
    clientDirector (fun r => { r with host := "front.example" })
      (fun _ => some { isLoopback := false })
      { method := "GET", host := "example.com:80", urlString := "http://example.com/" }
      = { method := "GET", host := "front.example", urlString := "http://example.com/" } := by
  constructor
  · exact (clientDirector_resolved_dispatch _ _ _ { isLoopback := true } rfl).1 rfl
  · exact (clientDirector_resolved_dispatch _ _ _ { isLoopback := false } rfl).2 rfl

/-- Claim C4: a request carrying a non-empty X-Lantern-Request-Info
header is answered by handleInfoRequest — status 200, empty body, and the
X-LANTERN-PUBLIC-IP header set to the caller's apparent IP — and never
reaches serverProxy. -/
theorem handleServer_info_request (req : ServerRequest) (h : req.infoHeaderValue ≠ "") :
    handleServer req = .infoResponse
      { publicIPHeader := apparentClientIp req, statusCode := 200, body := "" } ∧
    handleServer req ≠ .proxiedByServerProxy := by
  unfold handleServer handleInfoRequest
  simp [h]

/-- Witness for C4: a concrete info request with an X-Forwarded-For chain
is answered with the last entry of that chain, status 200, empty body. -/
theorem handleServer_info_request_witness :
    handleServer
      { infoHeaderValue := "true", xForwardedFor := "10.0.0.1,203.0.113.7",
        remoteAddr := "198.51.100.2:4321" }
      = .infoResponse { publicIPHeader := "203.0.113.7", statusCode := 200, body := "" } ∧
    handleServer
      { infoHeaderValue := "true", xForwardedFor := "10.0.0.1,203.0.113.7",
        remoteAddr := "198.51.100.2:4321" }
      ≠ .proxiedByServerProxy := by
  have h := handleServer_info_request
    { infoHeaderValue := "true", xForwardedFor := "10.0.0.1,203.0.113.7",
      remoteAddr := "198.51.100.2:4321" } (by decide)
  refine ⟨?_, h.2⟩
  rw [h.1]
  decide

/-- Claim C5 (counterexample): the claim says every two issuances via
certificateFor produce distinct serial numbers.  Two leaf issuances at
different instants (sec 11 and sec 222) that share the
nanosecond-within-second component 777 produce the same serial number,
because the serial is `int64(time.Now().Nanosecond())`. -/
theorem certificateFor_serial_collision :
    (({ now := { sec := 11, nsec := 777 }, nowMinusOneMonth := { sec := 5, nsec := 777 } } : Clock) ≠
      { now := { sec := 222, nsec := 777 }, nowMinusOneMonth := { sec := 200, nsec := 777 } }) ∧
    (certificateFor
        { now := { sec := 11, nsec := 777 }, nowMinusOneMonth := { sec := 5, nsec := 777 } }
        "a.example" { sec := 1000, nsec := 0 } true
        (some (certificateFor
          { now := { sec := 0, nsec := 0 }, nowMinusOneMonth := { sec := -1, nsec := 0 } }
          "flashlight-root" { sec := 10000, nsec := 0 } true none))).serialNumber =
      (certificateFor
        { now := { sec := 222, nsec := 777 }, nowMinusOneMonth := { sec := 200, nsec := 777 } }
        "b.example" { sec := 2000, nsec := 0 } true
        (some (certificateFor
          { now := { sec := 0, nsec := 0 }, nowMinusOneMonth := { sec := -1, nsec := 0 } }
          "flashlight-root" { sec := 10000, nsec := 0 } true none))).serialNumber := by
  decide

/-- Claim C5 (amended): the serial number of each certificateFor issuance
equals the nanosecond-within-second component of the issuance time, so
two issuances receive distinct serial numbers exactly when those
nanosecond components differ. -/
theorem certificateFor_serial_is_nanosecond (clock clock2 : Clock) (name name2 : String)
    (validUntil validUntil2 : GoTime) (isCA isCA2 : Bool)
    (issuer issuer2 : Option Certificate) :
    (certificateFor clock name validUntil isCA issuer).serialNumber = Int.ofNat clock.now.nsec ∧
    ((certificateFor clock name validUntil isCA issuer).serialNumber ≠
        (certificateFor clock2 name2 validUntil2 isCA2 issuer2).serialNumber ↔
      clock.now.nsec ≠ clock2.now.nsec) := by
  refine ⟨certificateFor_serialNumber _ _ _ _ _, ?_⟩
  rw [certificateFor_serialNumber, certificateFor_serialNumber]
  simp

/-- Witness for the amended C5 theorem: nanosecond 42 gives serial 42,
and two issuances with nanoseconds 42 and 43 get distinct serials. -/
theorem certificateFor_serial_is_nanosecond_witness :
    (certificateFor
      { now := { sec := 1, nsec := 42 }, nowMinusOneMonth := { sec := 0, nsec := 42 } }
      "a.example" { sec := 100, nsec := 0 } true none).serialNumber = Int.ofNat 42 ∧
    ((certificateFor
        { now := { sec := 1, nsec := 42 }, nowMinusOneMonth := { sec := 0, nsec := 42 } }
        "a.example" { sec := 100, nsec := 0 } true none).serialNumber ≠
      (certificateFor
        { now := { sec := 2, nsec := 43 }, nowMinusOneMonth := { sec := 1, nsec := 43 } }
        "b.example" { sec := 200, nsec := 0 } false none).serialNumber ↔
      (42 : Nat) ≠ 43) :=
  certificateFor_serial_is_nanosecond
    { now := { sec := 1, nsec := 42 }, nowMinusOneMonth := { sec := 0, nsec := 42 } }
    { now := { sec := 2, nsec := 43 }, nowMinusOneMonth := { sec := 1, nsec := 43 } }
    "a.example" "b.example" { sec := 100, nsec := 0 } { sec := 200, nsec := 0 }
    true false none none

/-- Claim C6: wrappedRoundTripper.RoundTrip applies the response rewrite
exactly when the inner RoundTripper returned a nil error; on a non-nil
error the (response, error) pair is returned exactly as the inner
RoundTripper produced it, with no rewrite. -/
theorem wrappedRoundTrip_rewrite_iff_success (rt : WrappedRoundTripper) (req : Request) :
    ((rt.orig req).2 = none →
      wrappedRoundTrip rt req = ((rt.orig req).1.map rt.rewrite, none)) ∧
    (∀ e, (rt.orig req).2 = some e → wrappedRoundTrip rt req = rt.orig req) := by
  constructor
  · intro h
    simp [wrappedRoundTrip, h]
  · intro e h
    simp [wrappedRoundTrip, h]

/-- Witness for C6: on success the rewrite replaces the status code; on
failure the pair passes through untouched. -/
theorem wrappedRoundTrip_rewrite_iff_success_witness :
    wrappedRoundTrip
      { rewrite := fun r => { r with statusCode := 204 }
        orig := fun _ => (some { statusCode := 500, headers := [] }, none) }
      { method := "GET", host := "example.com", urlString := "/" }
      = (some { statusCode := 204, headers := [] }, none) ∧
    wrappedRoundTrip
      { rewrite := fun r => { r with statusCode := 204 }
        orig := fun _ => (none, some .innerRoundTripFailed) }
      { method := "GET", host := "example.com", urlString := "/" }
      = (none, some .innerRoundTripFailed) := by
  constructor
  · exact (wrappedRoundTrip_rewrite_iff_success _ _).1 rfl
  · exact (wrappedRoundTrip_rewrite_iff_success _ _).2 .innerRoundTripFailed rfl

/-- Claim C7: with no persisted key and no persisted root certificate,
and every generation and write effect succeeding, initCommonCerts
succeeds, generating a 2048-bit private key and a self-signed root with
IsCA true, a key usage including CertSign (bit 5), NotAfter ten years
from today, and persisting both. -/
theorem initCommonCerts_fresh_generation (env : CertEnv)
    (hpk : env.loadPK = .notExist) (hca : env.loadCA = .notExist)
    (hg1 : env.genPKFails = false) (hw1 : env.writePKFails = false)
    (hg2 : env.certGenFails = false) (hw2 : env.writeCAFails = false) :
    ∃ out, initCommonCerts env = .ok out ∧
      out.pk.bits ≥ 2048 ∧
      out.caCert.isCA = true ∧
      Nat.testBit out.caCert.keyUsage 5 = true ∧
      out.caCert.notAfter = env.tenYearsFromToday ∧
      out.caCert.issuerCN = none ∧
      out.pkWritten = true ∧ out.caWritten = true := by
  have hstep : initCommonCerts env = .ok
      { pk := generatePK 2048
        caCert := certificateFor env.clock ("flashlight-" ++ env.uuid)
          env.tenYearsFromToday true none
        pkWritten := true
        caWritten := true
        installOutcome := installCACertToTrustStoreIfNecessary env.installEnv } := by
    unfold initCommonCerts pkStep caStep
    rw [hpk, hca, hg1, hw1, hg2, hw2]
    rfl
  refine ⟨_, hstep, Nat.le_refl 2048, rfl, ?_, rfl, rfl, rfl, rfl⟩
  show Nat.testBit 37 5 = true
  rfl

/-- Witness for C7 at a fully concrete environment. -/
theorem initCommonCerts_fresh_generation_witness :
    ∃ out, initCommonCerts
      { loadPK := .notExist, genPKFails := false, writePKFails := false,
        loadCA := .notExist, certGenFails := false, writeCAFails := false,
        clock := { now := { sec := 60, nsec := 9 }, nowMinusOneMonth := { sec := 30, nsec := 9 } },
        uuid := "0f0f", oneMonthFromToday := { sec := 100, nsec := 0 },
        tenYearsFromToday := { sec := 1000, nsec := 0 },
        installEnv :=
          { isDownstream := true, installFlag := false,
            isInstalledResult := .ok true, addAsTrustedRootFails := false } }
      = .ok out ∧
      out.pk.bits ≥ 2048 ∧
      out.caCert.isCA = true ∧
      Nat.testBit out.caCert.keyUsage 5 = true ∧
      out.caCert.notAfter = { sec := 1000, nsec := 0 } ∧
      out.caCert.issuerCN = none ∧
      out.pkWritten = true ∧ out.caWritten = true :=
  initCommonCerts_fresh_generation _ rfl rfl rfl rfl rfl rfl

/-- Claim C8: once the private-key and CA steps of initCommonCerts
succeed, the function returns successfully for every trust-store
environment, so an installation failure is non-fatal; AddAsTrustedRoot is
invoked only when the process is client-facing or in explicit install
mode; and a certificate already present in the trust store is never
re-installed (the function has no removal operation at all). -/
theorem installFailure_nonfatal_and_install_guarded (env : CertEnv)
    (k : PrivateKey) (pkw : Bool) (c : Certificate) (caw : Bool)
    (hpk : pkStep env = .ok (k, pkw)) (hca : caStep env = .ok (c, caw)) :
    (∀ instEnv : InstallEnv,
      initCommonCerts { env with installEnv := instEnv } = .ok
        { pk := k, caCert := c, pkWritten := pkw, caWritten := caw
          installOutcome := installCACertToTrustStoreIfNecessary instEnv }) ∧
    (∀ instEnv : InstallEnv,
      (installCACertToTrustStoreIfNecessary instEnv).added = true →
        (instEnv.isDownstream || instEnv.installFlag) = true) ∧
    (∀ instEnv : InstallEnv, instEnv.isInstalledResult = .ok true →
      (installCACertToTrustStoreIfNecessary instEnv).added = false) := by
  refine ⟨?_, ?_, ?_⟩
  · intro i
    unfold initCommonCerts
    rw [pkStep_ignores_installEnv, caStep_ignores_installEnv, hpk, hca]
  · intro i hadded
    rcases i with ⟨d, f, r, a⟩
    cases d <;> cases f <;> simp_all [installCACertToTrustStoreIfNecessary]
  · intro i hinst
    rcases i with ⟨d, f, r, a⟩
    simp only at hinst
    subst hinst
    cases d <;> cases f <;> rfl

/-- Witness for C8: both persisted artifacts load fine, the trust-store
check says the cert is missing, AddAsTrustedRoot fails — and
initCommonCerts still succeeds, recording the attempted install and its
error. -/
theorem installFailure_nonfatal_and_install_guarded_witness :
    initCommonCerts
      { loadPK := .ok { bits := 2048 }, genPKFails := false, writePKFails := false,
        loadCA := .ok
          { serialNumber := 9, organization := ["Lantern"], commonName := "flashlight-root",
            notBefore := { sec := 0, nsec := 0 }, notAfter := { sec := 1000, nsec := 0 },
            basicConstraintsValid := true, keyUsage := 37, extKeyUsageServerAuth := true,
            isCA := true, issuerCN := none },
        certGenFails := false, writeCAFails := false,
        clock := { now := { sec := 60, nsec := 0 }, nowMinusOneMonth := { sec := 30, nsec := 0 } },
        uuid := "u", oneMonthFromToday := { sec := 100, nsec := 0 },
        tenYearsFromToday := { sec := 2000, nsec := 0 },
        installEnv :=
          { isDownstream := true, installFlag := false,
            isInstalledResult := .ok false, addAsTrustedRootFails := true } }
      = .ok
        { pk := { bits := 2048 },
          caCert :=
            { serialNumber := 9, organization := ["Lantern"], commonName := "flashlight-root",
              notBefore := { sec := 0, nsec := 0 }, notAfter := { sec := 1000, nsec := 0 },
              basicConstraintsValid := true, keyUsage := 37, extKeyUsageServerAuth := true,
              isCA := true, issuerCN := none },
          pkWritten := false, caWritten := false,
          installOutcome := { checked := true, added := true, err := some .addTrustedRootFailed } } := by
  have h := (installFailure_nonfatal_and_install_guarded
    { loadPK := .ok { bits := 2048 }, genPKFails := false, writePKFails := false,
      loadCA := .ok
        { serialNumber := 9, organization := ["Lantern"], commonName := "flashlight-root",
          notBefore := { sec := 0, nsec := 0 }, notAfter := { sec := 1000, nsec := 0 },
          basicConstraintsValid := true, keyUsage := 37, extKeyUsageServerAuth := true,
          isCA := true, issuerCN := none },
      certGenFails := false, writeCAFails := false,
      clock := { now := { sec := 60, nsec := 0 }, nowMinusOneMonth := { sec := 30, nsec := 0 } },
      uuid := "u", oneMonthFromToday := { sec := 100, nsec := 0 },
      tenYearsFromToday := { sec := 2000, nsec := 0 },
      installEnv :=
        { isDownstream := true, installFlag := false,
          isInstalledResult := .ok false, addAsTrustedRootFails := true } }
    { bits := 2048 } false
    { serialNumber := 9, organization := ["Lantern"], commonName := "flashlight-root",
      notBefore := { sec := 0, nsec := 0 }, notAfter := { sec := 1000, nsec := 0 },
      basicConstraintsValid := true, keyUsage := 37, extKeyUsageServerAuth := true,
      isCA := true, issuerCN := none } false rfl rfl).1
    { isDownstream := true, installFlag := false,
      isInstalledResult := .ok false, addAsTrustedRootFails := true }
  exact h

/-- Claim C9: Client.ServeHTTP sends CONNECT requests to
EnproxyConfig.Intercept and every other request to the reverse proxy;
each request takes exactly one of the two paths. -/
theorem clientServeHTTP_dispatch (req : Request) :
    (clientServeHTTP req = .enproxyIntercept ↔ req.method = CONNECT) ∧
    (clientServeHTTP req = .reverseProxyServe ↔ req.method ≠ CONNECT) := by
  unfold clientServeHTTP
  by_cases h : req.method = CONNECT <;> simp [h]

/-- Witness for C9: a CONNECT request is intercepted, a GET request goes
to the reverse proxy. -/
theorem clientServeHTTP_dispatch_witness :
    clientServeHTTP { method := "CONNECT", host := "example.com:443", urlString := "example.com:443" }
      = .enproxyIntercept ∧
    clientServeHTTP { method := "GET", host := "example.com", urlString := "http://example.com/" }
      = .reverseProxyServe := by
  constructor
  · exact (clientServeHTTP_dispatch
      { method := "CONNECT", host := "example.com:443", urlString := "example.com:443" }).1.mpr rfl
  · exact (clientServeHTTP_dispatch
      { method := "GET", host := "example.com", urlString := "http://example.com/" }).2.mpr (by decide)

/-- Claim C10: when net.ResolveIPAddr fails on the request host's first
colon-field, the client Director treats the request like a loopback
destination: the rewrite is not applied and the request is unchanged. -/
theorem clientDirector_unresolvable_unchanged (rewriteRequest : Request → Request)
    (resolve : String → Option IPAddr) (req : Request)
    (hres : resolve ((goSplit req.host ':').headD "") = none) :
    clientDirector rewriteRequest resolve req = req := by
  unfold clientDirector
  rw [hres]

/-- Witness for C10: an unresolvable host passes through unchanged. -/
theorem clientDirector_unresolvable_unchanged_witness :
    clientDirector (fun r => { r with host := "front.example" }) (fun _ => none)
      { method := "GET", host := "no-such-host.invalid:80", urlString := "/" }
      = { method := "GET", host := "no-such-host.invalid:80", urlString := "/" } :=
  clientDirector_unresolvable_unchanged _ _ _ rfl

end Flashlight
